import Mathlib

/-!
Shallow embedding of the API-key authentication and response-envelope layer of
the api.zachlagden.uk gateway (Python/Flask).  Pure Python functions become
Lean functions; file I/O and the random token source become explicit inputs;
unhandled Python exceptions become an explicit error constructor.
-/

namespace ZLApi

/-- One record of `api_keys.json`: an issued API key with metadata
(`helpers/keys.py`). -/
structure KeyRecord where
  key : String
  created : String
  created_by : String
deriving DecidableEq, Repr

/-- Membership scan of `check_api_key` (`helpers/keys.py` lines 41-44):
`for key in api_keys: if key["key"] == api_key: return True` / `return False`.
The presented key may be absent (`None` in Python), which compares unequal to
every stored string key. -/
def checkApiKeyList (store : List KeyRecord) (api_key : Option String) : Bool :=
  store.any (fun r => some r.key == api_key)

/-- `check_api_key` of `helpers/keys.py` (lines 37-44).  The function re-reads
`api_keys.json` with no try/except: the file-read-and-parse step is passed in
as an `Except` value, and a read/parse failure propagates out of the function
unchanged (the source has no handler). -/
def check_api_key (file : Except String (List KeyRecord)) (api_key : Option String) :
    Except String Bool :=
  match file with
  | .error e => .error e
  | .ok api_keys => .ok (checkApiKeyList api_keys api_key)

/-- `check_master_key` of `helpers/keys.py` (lines 46-47):
`api_key == CONFIG["api"]["master_key"]`.  The configured master credential is
a parameter; an absent (`None`) presented key compares unequal. -/
def check_master_key (master_key : String) (api_key : Option String) : Bool :=
  api_key == some master_key

/-- `generate_api_key` of `helpers/keys.py` (lines 16-34).  The
`secrets.token_urlsafe(32)` output and the `datetime.now().isoformat()` value
are explicit inputs `token` and `now`; the function appends the new record to
the in-memory store and rewrites the file with the appended list, returning
the new key together with the persisted store. -/
def generate_api_key (store : List KeyRecord) (token : String) (now : String)
    (created_by : String := "System") : String × List KeyRecord :=
  let new_api_key := "ZLAPI-" ++ token
  (new_api_key, store ++ [{ key := new_api_key, created := now, created_by := created_by }])

/-! ## Response bodies -/

/-- The five-field track object the activity endpoints build from a LastFM
track (`activity.py` lines 114-120 and 219-227). -/
structure TrackOut where
  artist : String
  name : String
  album : String
  url : String
  image : String
deriving DecidableEq, Repr

/-- The possible values of the `data` key of an envelope (absent when the
handler never sets it, JSON `null`, the raw upstream text, the raw parsed
upstream payload, a single track object, or a list of track objects). -/
inductive RData where
  | absent
  | null
  | rawText (s : String)
  | rawJson (raw : String)
  | track (t : TrackOut)
  | tracks (ts : List TrackOut)
  | b64 (s : String)
  | colors (hex : List String) (rgb : List (List Int))
deriving DecidableEq, Repr

/-- The uniform JSON envelope every data endpoint builds inline:
`ok`, `status`, `message`, optional `data`, optional `error`. -/
structure Envelope where
  ok : Bool
  status : Int
  message : String
  data : RData := .absent
  error : Option String := none
deriving DecidableEq, Repr

/-- The observable outcome of one request: a JSON body with its transport
HTTP status, a flask-restx request-parser rejection (transport 400 with the
framework's validation body, not the envelope), a streamed file
(`send_file`) with its MIME type, or an unhandled Python exception escaping
the handler. -/
inductive HttpResult where
  | jsonResp (body : Envelope) (transport : Int)
  | validationError (message : String)
  | fileResp (mimetype : String)
  | pyError (e : String)
deriving DecidableEq, Repr

/-- The rejection envelope both activity handlers return for a failed key
check (`activity.py` lines 78-82 and 179-183). -/
def invalidKeyEnv : Envelope :=
  { ok := false, status := 401, message := "Invalid API key" }

/-! ## Upstream (LastFM) model -/

/-- One upstream track as the handlers read it: `artist.#text`, `name`,
`album.#text`, `url`, the `image` list's `#text` fields, and whether
`"@attr"` is present with a `"nowplaying"` entry. -/
structure LfmTrack where
  artistText : String
  name : String
  albumText : String
  url : String
  imageTexts : List String
  nowplaying : Bool
deriving DecidableEq, Repr

/-- Result of `request_response.json()`: either the expected
`recenttracks.track` list or a payload missing those keys
(`"recenttracks" not in request_data or "track" not in ...`). -/
inductive LfmPayload where
  | malformed (raw : String)
  | wellFormed (tracks : List LfmTrack)
deriving DecidableEq, Repr

/-- The upstream HTTP response as the handlers consume it: `status_code`,
`text`, and the parsed `json()` body. -/
structure UpstreamResponse where
  status_code : Int
  text : String
  payload : LfmPayload
deriving DecidableEq, Repr

/-- Build the five-field track object: `track["image"][-1]["#text"]` raises
`IndexError` on an empty image list, otherwise takes the last entry. -/
def trackToData (t : LfmTrack) : Except String TrackOut :=
  match t.imageTexts.getLast? with
  | none => .error "IndexError"
  | some img => .ok ⟨t.artistText, t.name, t.albumText, t.url, img⟩

/-! ## Activity endpoints (`endpoints/activity.py`) -/

/-- `LastFMNowPlaying.get` (`activity.py` lines 74-134), after
`parse_args` has succeeded (so `api_key` is a string).  Branches, in source
order: failed key check → 401 envelope with transport 401; upstream
`status_code != 200` → envelope mirroring the upstream code in the body
with the raw text in `data`, returned as a bare dict so the transport
status is the framework default 200; payload missing
`recenttracks`/`track` → 500/500 with the parsed payload in `data`;
`track[0]` on an empty list → `IndexError`; now playing → 200/200 with the
track object; otherwise → `ok:true, status:200, data:null` with transport
404. -/
def nowPlayingGet (store : List KeyRecord) (api_key : String)
    (up : UpstreamResponse) : HttpResult :=
  if ¬ checkApiKeyList store (some api_key) then
    .jsonResp invalidKeyEnv 401
  else if up.status_code ≠ 200 then
    .jsonResp
      { ok := false, status := up.status_code,
        message := "Failed to get now playing data from LastFM while sending request. Response from the API is in the data key.",
        data := .rawText up.text } 200
  else
    match up.payload with
    | .malformed raw =>
        .jsonResp
          { ok := false, status := 500,
            message := "Failed to get now playing data from LastFM. Response from the API is in the data key.",
            data := .rawJson raw } 500
    | .wellFormed tracks =>
        match tracks with
        | [] => .pyError "IndexError"
        | t :: _ =>
            if t.nowplaying then
              match trackToData t with
              | .error e => .pyError e
              | .ok td =>
                  .jsonResp
                    { ok := true, status := 200,
                      message := "Successfully fetched now playing data.",
                      data := .track td } 200
            else
              .jsonResp
                { ok := true, status := 200,
                  message := "No track is currently playing",
                  data := .null } 404

/-- Python list slice `xs[:n]` for an `int` bound: non-negative `n` keeps the
first `n` elements; negative `n` drops the last `|n|` (clamped at empty). -/
def pySliceTo (xs : List α) (n : Int) : List α :=
  if 0 ≤ n then xs.take n.toNat else xs.take (xs.length - (-n).toNat)

/-- The `for track in tracks: track_data.append({...})` loop of
`LastFMRecentTracks.get` (`activity.py` lines 217-227): builds the
projected list in order, and the first track with an empty `image` list
raises out of the loop. -/
def tracksToData : List LfmTrack → Except String (List TrackOut)
  | [] => .ok []
  | t :: ts =>
      match trackToData t with
      | .error e => .error e
      | .ok d =>
          match tracksToData ts with
          | .error e => .error e
          | .ok ds => .ok (d :: ds)

/-- Total variant of the per-track projection, used to state what
`tracksToData` returns when every track has a non-empty image list. -/
def trackOutD (t : LfmTrack) : TrackOut :=
  ⟨t.artistText, t.name, t.albumText, t.url, t.imageTexts.getLastD ""⟩

/-- The optional truncation `if args["limit"] is not None: tracks =
tracks[:args["limit"]]` (`activity.py` lines 213-215). -/
def limitSlice (tracks : List LfmTrack) (limit : Option Int) : List LfmTrack :=
  match limit with
  | some n => pySliceTo tracks n
  | none => tracks

/-- `LastFMRecentTracks.get` (`activity.py` lines 175-234), after
`parse_args` has succeeded: same key check and upstream branches as
now-playing (with its own messages), then the optional `limit` slice
`tracks[:limit]` and the per-track projection loop; the success envelope is
a bare dict, so transport 200. -/
def recentTracksGet (store : List KeyRecord) (api_key : String)
    (limit : Option Int) (up : UpstreamResponse) : HttpResult :=
  if ¬ checkApiKeyList store (some api_key) then
    .jsonResp invalidKeyEnv 401
  else if up.status_code ≠ 200 then
    .jsonResp
      { ok := false, status := up.status_code,
        message := "Failed to get recent tracks data from LastFM while sending request. Response from the API is in the data key.",
        data := .rawText up.text } 200
  else
    match up.payload with
    | .malformed raw =>
        .jsonResp
          { ok := false, status := 500,
            message := "Failed to get recent tracks data from LastFM. Response from the API is in the data key.",
            data := .rawJson raw } 500
    | .wellFormed tracks =>
        match tracksToData (limitSlice tracks limit) with
        | .error e => .pyError e
        | .ok track_data =>
            .jsonResp
              { ok := true, status := 200,
                message := "Successfully fetched recent tracks data.",
                data := .tracks track_data } 200

/-! ## Request parsing (flask-restx `reqparse`) -/

/-- Look up a query parameter by name (first occurrence). -/
def getArg (query : List (String × String)) (name : String) : Option String :=
  (query.find? (fun p => p.1 == name)).map (fun p => p.2)

/-- Digit-run accumulator for the decimal parser below. -/
def digitsToNatAux : List Char → Nat → Option Nat
  | [], acc => some acc
  | c :: cs, acc =>
      if c.isDigit then digitsToNatAux cs (acc * 10 + (c.toNat - '0'.toNat))
      else none

/-- A non-empty all-digit run, as a natural number. -/
def digitsToNat (l : List Char) : Option Nat :=
  match l with
  | [] => none
  | _ => digitsToNatAux l 0

/-- Python `int(value)` as flask-restx applies it to a `type=int` query
argument: an optional sign followed by at least one decimal digit; anything
else raises (parsed as `none`, which the framework turns into a 400
validation rejection).  Note it accepts any integer, negative included. -/
def pyParseInt (s : String) : Option Int :=
  match s.data with
  | '-' :: ds => (digitsToNat ds).map (fun n => -(n : Int))
  | '+' :: ds => (digitsToNat ds).map (fun n => (n : Int))
  | ds => (digitsToNat ds).map (fun n => (n : Int))

/-- The body message flask-restx aborts with (HTTP 400) when a
`required=True` argument is missing or an argument fails its type/choices
constraint. -/
def restxAbortMsg : String := "Input payload validation failed"

/-- `/activity/now_playing` including `activity_now_playing_parser`
(lines 57-60): `api_key` is `required=True`, so an absent `api_key` aborts
with the framework's 400 validation response before the handler body runs. -/
def nowPlayingEndpoint (store : List KeyRecord) (query : List (String × String))
    (up : UpstreamResponse) : HttpResult :=
  match getArg query "api_key" with
  | none => .validationError restxAbortMsg
  | some k => nowPlayingGet store k up

/-- `/activity/recent_tracks` including `activity_recent_tracks_parser`
(lines 155-161): `api_key` required; `limit` optional with `type=int`, so a
present but non-integer `limit` aborts with the 400 validation response and
any integer (negative included) is accepted. -/
def recentTracksEndpoint (store : List KeyRecord) (query : List (String × String))
    (up : UpstreamResponse) : HttpResult :=
  match getArg query "api_key" with
  | none => .validationError restxAbortMsg
  | some k =>
      match getArg query "limit" with
      | none => recentTracksGet store k none up
      | some s =>
          match pyParseInt s with
          | none => .validationError restxAbortMsg
          | some n => recentTracksGet store k (some n) up

/-! ## Tools and images endpoints (`endpoints/tools.py`, `endpoints/images.py`) -/

/-- Choice check for the tools-QR `size` argument (`type=int`, default 8,
choices 1..50): absent is fine, present must parse as an integer in
range. -/
def qrSizeOk (query : List (String × String)) : Bool :=
  match getArg query "size" with
  | none => true
  | some s =>
      match pyParseInt s with
      | none => false
      | some n => decide (1 ≤ n ∧ n ≤ 50)

/-- Choice check for the tools-QR `error_correction` argument (default "L",
choices L/M/Q/H). -/
def qrEcOk (query : List (String × String)) : Bool :=
  match getArg query "error_correction" with
  | none => true
  | some e => ["L", "M", "Q", "H"].contains e

/-- `QRCodeGenerator.get` of `endpoints/tools.py` (lines 85-131), with its
parser (`data` required; `size` `type=int`, default 8, choices 1..50;
`error_correction` default "L", choices L/M/Q/H).  The collaborator call
(`qrcode` generation + PNG encoding) is an explicit outcome input; the
returned flag records whether that collaborator was invoked.  The handler
performs NO key check of any kind: after parsing and the 1000-character
bound it goes straight to generation. -/
def qrToolsGet (query : List (String × String)) (gen : Except String Unit) :
    HttpResult × Bool :=
  match getArg query "data" with
  | none => (.validationError restxAbortMsg, false)
  | some data =>
      if !(qrSizeOk query && qrEcOk query) then (.validationError restxAbortMsg, false)
      else if data.length > 1000 then
        (.jsonResp
          { ok := false, status := 400,
            message := "The data cannot be longer than 1000 characters" } 400, false)
      else
        match gen with
        | .error e =>
            (.jsonResp
              { ok := false, status := 500,
                message := "Failed to generate QR code",
                error := some e } 500, true)
        | .ok _ => (.fileResp "image/png", true)

/-- Choice check for the barcode `barcode_type` argument (default
"code128", choices code39/ean13/ean8/upca/code128). -/
def barcodeTypeOk (query : List (String × String)) : Bool :=
  match getArg query "barcode_type" with
  | none => true
  | some t => ["code39", "ean13", "ean8", "upca", "code128"].contains t

/-- `BarcodeGenerator.get` of `endpoints/images.py` (lines 347-367), with its
parser (`data` required; `barcode_type` default "code128", choices
code39/ean13/ean8/upca/code128).  Like the QR endpoint it performs no key
check: parsing succeeds → the barcode collaborator is invoked. -/
def barcodeGet (query : List (String × String)) (gen : Except String Unit) :
    HttpResult × Bool :=
  match getArg query "data" with
  | none => (.validationError restxAbortMsg, false)
  | some _data =>
      if !(barcodeTypeOk query) then (.validationError restxAbortMsg, false)
      else
        match gen with
        | .error e =>
            (.jsonResp
              { ok := false, status := 500,
                message := "Failed to generate barcode",
                error := some e } 500, true)
        | .ok _ => (.fileResp "image/svg+xml", true)

/-- `QRCodeGenerator.get` of `endpoints/images.py` (lines 261-305), after
`parse_args` has succeeded (`data` a string, the enumerated arguments
within their choices).  `isBase64` models `args["filetype"].upper() ==
"BASE64"`; `filetypeLower` is `args['filetype'].lower()` used in the
`send_file` MIME type; `gen` is the `generate_qr_code` collaborator
outcome, its payload the base64 encoding of the generated bytes.
Branches: over-long data → 400/400 envelope; generation failure → 500/500
envelope with the exception text; BASE64 requested → a bare success dict
(transport 200) whose payload key is `base64`; otherwise `send_file`. -/
def imagesQrGet (data : String) (isBase64 : Bool) (filetypeLower : String)
    (gen : Except String String) : HttpResult :=
  if data.length > 1000 then
    .jsonResp
      { ok := false, status := 400,
        message := "The data cannot be longer than 1000 characters" } 400
  else
    match gen with
    | .error e =>
        .jsonResp
          { ok := false, status := 500,
            message := "Failed to generate QR code", error := some e } 500
    | .ok base64_string =>
        if isBase64 then
          .jsonResp
            { ok := true, status := 200,
              message := "Successfully generated QR code",
              data := .b64 base64_string } 200
        else .fileResp ("image/" ++ filetypeLower)

/-- `DominantColorsExtractor.get` of `endpoints/images.py` (lines 89-173),
after `parse_args` has succeeded.  The three guarded collaborator steps
(`urllib.request.urlopen`, `requests.get` + `BytesIO`, `Image.open`) each
sit in their own try/except mapping to a 400 envelope; the remaining
processing (PNG re-encode, cv2 decode, KMeans, hex conversion) has NO
try/except, so a failure there escapes as an unhandled exception; success
is a bare dict (transport 200) with the hex and rgb colour lists. -/
def dominantColorsGet (urlCheck download imageOpen : Except String Unit)
    (processing : Except String (List String × List (List Int))) : HttpResult :=
  match urlCheck with
  | .error e =>
      .jsonResp
        { ok := false, status := 400,
          message := "The supplied URL is not valid.", error := some e } 400
  | .ok _ =>
      match download with
      | .error e =>
          .jsonResp
            { ok := false, status := 400,
              message := "Failed to download the image.", error := some e } 400
      | .ok _ =>
          match imageOpen with
          | .error e =>
              .jsonResp
                { ok := false, status := 400,
                  message := "The supplied URL is not a valid image.",
                  error := some e } 400
          | .ok _ =>
              match processing with
              | .error e => .pyError e
              | .ok (hex_colors, rgb_colors) =>
                  .jsonResp
                    { ok := true, status := 200,
                      message := "Successfully extracted dominant colors",
                      data := .colors hex_colors rgb_colors } 200

/-! ## Rate-limiter identity (`app.py`) -/

/-- Python truthiness of an optional string: `None` and `""` are falsy. -/
def pyTruthy (o : Option String) : Bool :=
  match o with
  | none => false
  | some s => s ≠ ""

/-- Python `a or b` on optional strings. -/
def pyOr (a b : Option String) : Option String :=
  if pyTruthy a then a else b

/-- `custom_key_func` of `app.py` (lines 33-42).  The Python expression
parses as
`(request.args.get("api_key") or get_remote_address()) if get_remote_address()
 else (cf[0] if cf else None)`:
the `api_key`-or-address value is only ever used when the remote address is
truthy; otherwise the first `Cf-Connecting-Ip` header (or nothing) is the
identity. -/
def custom_key_func (api_key remote : Option String) (cf : List String) :
    Option String :=
  if pyTruthy remote then pyOr api_key remote
  else
    match cf with
    | h :: _ => some h
    | [] => none

/-! ## Helper lemmas -/

theorem checkApiKeyList_eq_true_iff (store : List KeyRecord) (k : String) :
    checkApiKeyList store (some k) = true ↔ ∃ r ∈ store, r.key = k := by
  simp [checkApiKeyList]

theorem checkApiKeyList_eq_false_iff (store : List KeyRecord) (k : String) :
    checkApiKeyList store (some k) = false ↔ ∀ r ∈ store, r.key ≠ k := by
  simp [checkApiKeyList]

theorem trackToData_eq_ok (t : LfmTrack) (h : t.imageTexts ≠ []) :
    trackToData t = .ok (trackOutD t) := by
  unfold trackToData trackOutD
  match hl : t.imageTexts.getLast? with
  | none => exact absurd (List.getLast?_eq_none_iff.mp hl) h
  | some img =>
      simp only []
      rw [List.getLastD_eq_getLast?, hl]
      rfl

theorem tracksToData_eq_ok (l : List LfmTrack) (h : ∀ t ∈ l, t.imageTexts ≠ []) :
    tracksToData l = .ok (l.map trackOutD) := by
  induction l with
  | nil => rfl
  | cons t ts ih =>
      have ht : t.imageTexts ≠ [] := h t (List.mem_cons_self t ts)
      have hts : ∀ u ∈ ts, u.imageTexts ≠ [] := fun u hu => h u (List.mem_cons_of_mem t hu)
      simp [tracksToData, trackToData_eq_ok t ht, ih hts]

/-- Exhaustive description of every JSON response `nowPlayingGet` can emit:
either the 401 rejection (exactly when the key check fails), or, under a
successful key check, one of the four post-authentication branches with
their body-status/transport pairs. -/
theorem nowPlayingGet_jsonResp_spec (store : List KeyRecord) (k : String)
    (up : UpstreamResponse) (env : Envelope) (t : Int)
    (hr : nowPlayingGet store k up = .jsonResp env t) :
    (env = invalidKeyEnv ∧ t = 401 ∧ checkApiKeyList store (some k) = false)
    ∨ (checkApiKeyList store (some k) = true ∧
        ((t = 200 ∧ env.status = up.status_code ∧ up.status_code ≠ 200 ∧ env.ok = false
            ∧ env.data = .rawText up.text)
         ∨ (t = 500 ∧ env.status = 500)
         ∨ (t = 200 ∧ env.status = 200)
         ∨ (t = 404 ∧ env.status = 200 ∧ env.ok = true ∧ env.data = .null))) := by
  obtain ⟨code, text, payload⟩ := up
  cases hb : checkApiKeyList store (some k) with
  | false =>
      simp [nowPlayingGet, hb] at hr
      exact Or.inl ⟨hr.1.symm, hr.2.symm, rfl⟩
  | true =>
      refine Or.inr ⟨rfl, ?_⟩
      unfold nowPlayingGet at hr
      rw [hb] at hr
      by_cases hs : code = 200
      · subst hs
        cases payload with
        | malformed raw =>
            simp at hr
            exact Or.inr (Or.inl ⟨hr.2.symm, by rw [← hr.1]⟩)
        | wellFormed tracks =>
            cases tracks with
            | nil => simp at hr
            | cons t0 rest =>
                cases hnp : t0.nowplaying with
                | true =>
                    cases htd : trackToData t0 with
                    | error e => simp [hnp, htd] at hr
                    | ok td =>
                        simp [hnp, htd] at hr
                        exact Or.inr (Or.inr (Or.inl ⟨hr.2.symm, by rw [← hr.1]⟩))
                | false =>
                    simp [hnp] at hr
                    exact Or.inr (Or.inr (Or.inr
                      ⟨hr.2.symm, by rw [← hr.1], by rw [← hr.1], by rw [← hr.1]⟩))
      · simp [hs] at hr
        exact Or.inl ⟨hr.2.symm, by rw [← hr.1], hs, by rw [← hr.1], by rw [← hr.1]⟩

/-- Exhaustive description of every JSON response `recentTracksGet` can
emit, mirroring `nowPlayingGet_jsonResp_spec`. -/
theorem recentTracksGet_jsonResp_spec (store : List KeyRecord) (k : String)
    (limit : Option Int) (up : UpstreamResponse) (env : Envelope) (t : Int)
    (hr : recentTracksGet store k limit up = .jsonResp env t) :
    (env = invalidKeyEnv ∧ t = 401 ∧ checkApiKeyList store (some k) = false)
    ∨ (checkApiKeyList store (some k) = true ∧
        ((t = 200 ∧ env.status = up.status_code ∧ up.status_code ≠ 200 ∧ env.ok = false
            ∧ env.data = .rawText up.text)
         ∨ (t = 500 ∧ env.status = 500)
         ∨ (t = 200 ∧ env.status = 200))) := by
  obtain ⟨code, text, payload⟩ := up
  cases hb : checkApiKeyList store (some k) with
  | false =>
      simp [recentTracksGet, hb] at hr
      exact Or.inl ⟨hr.1.symm, hr.2.symm, rfl⟩
  | true =>
      refine Or.inr ⟨rfl, ?_⟩
      unfold recentTracksGet at hr
      rw [hb] at hr
      by_cases hs : code = 200
      · subst hs
        cases payload with
        | malformed raw =>
            simp at hr
            exact Or.inr (Or.inl ⟨hr.2.symm, by rw [← hr.1]⟩)
        | wellFormed tracks =>
            cases htd : tracksToData (limitSlice tracks limit) with
            | error e => simp [htd] at hr
            | ok track_data =>
                simp [htd] at hr
                exact Or.inr (Or.inr ⟨hr.2.symm, by rw [← hr.1]⟩)
      · simp [hs] at hr
        exact Or.inl ⟨hr.2.symm, by rw [← hr.1], hs, by rw [← hr.1], by rw [← hr.1]⟩

/-! ## Claim theorems -/

/-- C2: the claim says every endpoint consults the Key Store before its
collaborator runs, and on a failed credential the collaborator is never
invoked.  The code contradicts its own docstring and `api.doc` (which list
`api_key` as required and declare a 401 response): a request to the QR
endpoint carrying only `data` (no `api_key` at all, key store irrelevant —
neither handler even reads one) parses successfully, invokes the
QR/barcode collaborator (flag `true`), and streams the image. -/
theorem c2_endpoints_skip_authentication :
    qrToolsGet [("data", "hello")] (.ok ()) = (.fileResp "image/png", true)
    ∧ barcodeGet [("data", "12345678")] (.ok ()) = (.fileResp "image/svg+xml", true) := by
  constructor <;> rfl

/-- C7 counterexample: the claim says `check_api_key` fails closed and
returns `false` when the key-store file is unreadable or corrupt.  The
source has no try/except around `open`/`json.load`, so the error
propagates: on a corrupt read the call yields the error, not `.ok false`. -/
theorem c7_counterexample :
    check_api_key (.error "JSONDecodeError") (some "ZLAPI-k")
        = .error "JSONDecodeError"
    ∧ check_api_key (.error "JSONDecodeError") (some "ZLAPI-k") ≠ .ok false := by
  exact ⟨rfl, by simp [check_api_key]⟩

/-- C7 amended: when the key-store file read fails, `check_api_key`
propagates the read/parse error unchanged (it raises rather than returning
`false`); only on a successful read does it return the membership scan. -/
theorem c7_error_propagates (e : String) (api_key : Option String)
    (store : List KeyRecord) :
    check_api_key (.error e) api_key = .error e
    ∧ check_api_key (.ok store) api_key = .ok (checkApiKeyList store api_key) := by
  constructor <;> rfl

/-- C10 counterexample: the claim says the explicit `api_key` parameter is
always the rate-limit identity when present.  With the remote address
unavailable, the code falls to the `Cf-Connecting-Ip` branch and ignores
`api_key`. -/
theorem c10_counterexample :
    custom_key_func (some "ZLAPI-key") none ["203.0.113.9"] = some "203.0.113.9"
    ∧ custom_key_func (some "ZLAPI-key") none ["203.0.113.9"] ≠ some "ZLAPI-key" := by
  constructor <;> decide

/-- C10 amended: when the caller's network address is truthy, the identity
is the `api_key` parameter if present and non-empty, else the address;
when the address is absent or empty, the identity is the first
`Cf-Connecting-Ip` header value if any, else none — `api_key` is ignored
on that path. -/
theorem c10_identity_priority (api_key remote : Option String) (cf : List String) :
    (pyTruthy remote = true →
      custom_key_func api_key remote cf
        = if pyTruthy api_key then api_key else remote)
    ∧ (pyTruthy remote = false → custom_key_func api_key remote cf = cf.head?) := by
  refine ⟨fun h => ?_, fun h => ?_⟩
  · simp [custom_key_func, pyOr, h]
  · cases cf <;> simp [custom_key_func, h]

/-- C1 counterexample: the claim says presenting the master credential to
`/activity/now_playing` is accepted even when the Key Store is empty.  The
handler only calls `check_api_key` (never `check_master_key`), so with the
configured master credential "MASTER-SECRET" and an empty store the
request is rejected with the 401 envelope. -/
theorem c1_counterexample :
    check_master_key "MASTER-SECRET" (some "MASTER-SECRET") = true
    ∧ nowPlayingEndpoint [] [("api_key", "MASTER-SECRET")]
        ⟨200, "", .wellFormed []⟩ = .jsonResp invalidKeyEnv 401 :=
  ⟨by decide, rfl⟩

/-- C1 amended: the authenticator the protected endpoints use
(`check_api_key`) accepts a presented key exactly when the Key Store
contains a record whose `key` field equals it; a key failing that lookup —
the master credential included, unless it also sits in the store — gets the
401 rejection, and a key passing it is never 401-rejected.  The master
credential only satisfies the separate `check_master_key`, which holds
exactly on equality with the configured secret. -/
theorem c1_store_membership_only (store : List KeyRecord) (k master : String)
    (up : UpstreamResponse) :
    (checkApiKeyList store (some k) = true ↔ ∃ r ∈ store, r.key = k)
    ∧ (checkApiKeyList store (some k) = false →
        nowPlayingGet store k up = .jsonResp invalidKeyEnv 401)
    ∧ (checkApiKeyList store (some k) = true →
        nowPlayingGet store k up ≠ .jsonResp invalidKeyEnv 401)
    ∧ (check_master_key master (some k) = true ↔ k = master) := by
  refine ⟨checkApiKeyList_eq_true_iff store k, fun h => ?_, fun h hr => ?_, ?_⟩
  · unfold nowPlayingGet
    rw [h]
    rfl
  · rcases nowPlayingGet_jsonResp_spec store k up invalidKeyEnv 401 hr with
      ⟨_, _, hfalse⟩ | ⟨_, hc⟩
    · rw [h] at hfalse; cases hfalse
    · rcases hc with ⟨h2, _⟩ | ⟨h2, _⟩ | ⟨h2, _⟩ | ⟨h2, _⟩ <;> norm_num at h2
  · simp [check_master_key]

/-- C1 witness: a key present in the store is not 401-rejected by the
now-playing handler. -/
theorem c1_store_membership_only_witness :
    nowPlayingGet [⟨"ZLAPI-abc", "2024-01-01T00:00:00", "System"⟩] "ZLAPI-abc"
        ⟨200, "", .wellFormed []⟩ ≠ .jsonResp invalidKeyEnv 401 :=
  (c1_store_membership_only [⟨"ZLAPI-abc", "2024-01-01T00:00:00", "System"⟩]
    "ZLAPI-abc" "M" ⟨200, "", .wellFormed []⟩).2.2.1 (by decide)

/-- C3 counterexample: the claim says an absent `api_key` yields the 401
"Invalid API key" envelope with transport 401.  With `required=True` the
flask-restx parser aborts first: the response is the framework's 400
validation rejection, not the 401 envelope. -/
theorem c3_counterexample :
    nowPlayingEndpoint [⟨"ZLAPI-abc", "2024-01-01T00:00:00", "System"⟩]
        [("other", "x")] ⟨200, "", .wellFormed []⟩
      = .validationError restxAbortMsg
    ∧ HttpResult.validationError restxAbortMsg ≠ .jsonResp invalidKeyEnv 401 :=
  ⟨rfl, by decide⟩

/-- C3 amended: for every request whose `api_key` parameter is present but
fails the Key-Store lookup, the body is
`{ok: false, status: 401, message: "Invalid API key"}` with transport 401;
an absent `api_key` is instead rejected by the request parser with the
framework's 400 validation response before the handler body runs. -/
theorem c3_invalid_key_envelope (store : List KeyRecord)
    (query : List (String × String)) (k : String) (up : UpstreamResponse)
    (hk : getArg query "api_key" = some k)
    (hv : checkApiKeyList store (some k) = false) :
    nowPlayingEndpoint store query up
      = .jsonResp { ok := false, status := 401, message := "Invalid API key" } 401 := by
  have hstep : nowPlayingEndpoint store query up = nowPlayingGet store k up := by
    unfold nowPlayingEndpoint
    rw [hk]
  rw [hstep]
  unfold nowPlayingGet
  rw [hv]
  rfl

/-- C3 witness: a present but unknown key gets the 401 envelope. -/
theorem c3_invalid_key_envelope_witness :
    nowPlayingEndpoint [] [("api_key", "nope")] ⟨200, "", .wellFormed []⟩
      = .jsonResp { ok := false, status := 401, message := "Invalid API key" } 401 :=
  c3_invalid_key_envelope [] [("api_key", "nope")] "nope"
    ⟨200, "", .wellFormed []⟩ rfl rfl

/-- C4: issuing a key returns `"ZLAPI-" ++ token`, which the membership
check accepts on the store as just persisted; the key is non-empty and
carries the namespace prefix; the appended record holds the supplied
attribution and timestamp; under the freshness of the random token
(modelling `secrets.token_urlsafe(32)`) the key differs from every
previously stored key; and the attribution defaults to "System". -/
theorem c4_issue_spec (store : List KeyRecord) (token now cb : String)
    (hfresh : ∀ r ∈ store, r.key ≠ "ZLAPI-" ++ token) :
    (generate_api_key store token now cb).1 = "ZLAPI-" ++ token
    ∧ checkApiKeyList (generate_api_key store token now cb).2
        (some (generate_api_key store token now cb).1) = true
    ∧ (generate_api_key store token now cb).1 ≠ ""
    ∧ (∃ rest, (generate_api_key store token now cb).1 = "ZLAPI-" ++ rest)
    ∧ (generate_api_key store token now cb).2
        = store ++ [{ key := (generate_api_key store token now cb).1,
                      created := now, created_by := cb }]
    ∧ (∀ r ∈ store, r.key ≠ (generate_api_key store token now cb).1)
    ∧ generate_api_key store token now = generate_api_key store token now "System" := by
  refine ⟨rfl, ?_, ?_, ⟨token, rfl⟩, rfl, hfresh, rfl⟩
  · simp [generate_api_key, checkApiKeyList]
  · intro h
    have h1 : ("ZLAPI-" ++ token).length = "ZLAPI-".length + token.length :=
      String.length_append _ _
    rw [show (generate_api_key store token now cb).1 = "ZLAPI-" ++ token from rfl] at h
    rw [h] at h1
    have h2 : "ZLAPI-".length = 6 := rfl
    rw [h2] at h1
    have h3 : ("" : String).length = 0 := rfl
    omega

/-- C4 witness: issuing into an empty store with a concrete token. -/
theorem c4_issue_spec_witness :
    (generate_api_key [] "tok" "2024-01-01T00:00:00" "test-suite").1
        = "ZLAPI-" ++ "tok"
    ∧ checkApiKeyList (generate_api_key [] "tok" "2024-01-01T00:00:00" "test-suite").2
        (some (generate_api_key [] "tok" "2024-01-01T00:00:00" "test-suite").1) = true
    ∧ (generate_api_key [] "tok" "2024-01-01T00:00:00" "test-suite").1 ≠ ""
    ∧ (∃ rest, (generate_api_key [] "tok" "2024-01-01T00:00:00" "test-suite").1
        = "ZLAPI-" ++ rest)
    ∧ (generate_api_key [] "tok" "2024-01-01T00:00:00" "test-suite").2
        = [] ++ [{ key := (generate_api_key [] "tok" "2024-01-01T00:00:00" "test-suite").1,
                   created := "2024-01-01T00:00:00", created_by := "test-suite" }]
    ∧ (∀ r ∈ ([] : List KeyRecord),
        r.key ≠ (generate_api_key [] "tok" "2024-01-01T00:00:00" "test-suite").1)
    ∧ generate_api_key [] "tok" "2024-01-01T00:00:00"
        = generate_api_key [] "tok" "2024-01-01T00:00:00" "System" :=
  c4_issue_spec [] "tok" "2024-01-01T00:00:00" "test-suite" (by simp)

/-- C5 counterexample: the claim says the body `status` field always equals
the transport HTTP status.  On the upstream-failure branch the handler
returns a bare dict (no status tuple), so the transport is the framework
default 200 while the body carries the upstream 503. -/
theorem c5_counterexample :
    nowPlayingGet [⟨"ZLAPI-abc", "2024-01-01T00:00:00", "System"⟩] "ZLAPI-abc"
        ⟨503, "busy", .malformed "oops"⟩
      = .jsonResp
          { ok := false, status := 503,
            message := "Failed to get now playing data from LastFM while sending request. Response from the API is in the data key.",
            data := .rawText "busy" } 200
    ∧ (503 : Int) ≠ 200 :=
  ⟨rfl, by decide⟩

/-- C5 amended: for every JSON response of every endpoint handler
(now-playing, recent-tracks, tools QR, barcode, images QR, dominant
colors), the body `status` equals the transport status, except on two
branches of the activity handlers: the upstream-failure branch (body
mirrors the upstream code, transport 200) and the nothing-playing branch
(body 200, transport 404). -/
theorem c5_status_field (store : List KeyRecord) (k : String)
    (limit : Option Int) (up : UpstreamResponse) (query : List (String × String))
    (qrGen bcGen udl dl imgOpen : Except String Unit)
    (dataStr filetypeLower : String) (isBase64 : Bool)
    (b64Gen : Except String String)
    (processing : Except String (List String × List (List Int)))
    (env : Envelope) (t : Int) :
    (nowPlayingGet store k up = .jsonResp env t →
      env.status = t
      ∨ (t = 200 ∧ env.status = up.status_code ∧ up.status_code ≠ 200)
      ∨ (t = 404 ∧ env.status = 200 ∧ env.ok = true ∧ env.data = .null))
    ∧ (recentTracksGet store k limit up = .jsonResp env t →
      env.status = t
      ∨ (t = 200 ∧ env.status = up.status_code ∧ up.status_code ≠ 200))
    ∧ ((qrToolsGet query qrGen).1 = .jsonResp env t → env.status = t)
    ∧ ((barcodeGet query bcGen).1 = .jsonResp env t → env.status = t)
    ∧ (imagesQrGet dataStr isBase64 filetypeLower b64Gen = .jsonResp env t →
        env.status = t)
    ∧ (dominantColorsGet udl dl imgOpen processing = .jsonResp env t →
        env.status = t) := by
  refine ⟨?_, ?_, ?_, ?_, ?_, ?_⟩
  · intro hr
    rcases nowPlayingGet_jsonResp_spec store k up env t hr with ⟨he, ht, _⟩ | ⟨_, hc⟩
    · left; rw [he, ht]; rfl
    · rcases hc with ⟨h1, h2, h3, _, _⟩ | ⟨h1, h2⟩ | ⟨h1, h2⟩ | ⟨h1, h2, h3, h4⟩
      · exact Or.inr (Or.inl ⟨h1, h2, h3⟩)
      · left; rw [h1, h2]
      · left; rw [h1, h2]
      · exact Or.inr (Or.inr ⟨h1, h2, h3, h4⟩)
  · intro hr
    rcases recentTracksGet_jsonResp_spec store k limit up env t hr with
      ⟨he, ht, _⟩ | ⟨_, hc⟩
    · left; rw [he, ht]; rfl
    · rcases hc with ⟨h1, h2, h3, _, _⟩ | ⟨h1, h2⟩ | ⟨h1, h2⟩
      · exact Or.inr ⟨h1, h2, h3⟩
      · left; rw [h1, h2]
      · left; rw [h1, h2]
  · intro hr
    unfold qrToolsGet at hr
    cases hd : getArg query "data" with
    | none => rw [hd] at hr; simp at hr
    | some data =>
        rw [hd] at hr
        cases hok : (qrSizeOk query && qrEcOk query) with
        | false => simp [hok] at hr
        | true =>
            by_cases hlen : data.length > 1000
            · simp [hok, hlen] at hr
              rw [← hr.1, ← hr.2]
            · cases qrGen with
              | error e =>
                  simp [hok, hlen] at hr
                  rw [← hr.1, ← hr.2]
              | ok u => simp [hok, hlen] at hr
  · intro hr
    unfold barcodeGet at hr
    cases hd : getArg query "data" with
    | none => rw [hd] at hr; simp at hr
    | some data =>
        rw [hd] at hr
        cases hok : barcodeTypeOk query with
        | false => simp [hok] at hr
        | true =>
            cases bcGen with
            | error e =>
                simp [hok] at hr
                rw [← hr.1, ← hr.2]
            | ok u => simp [hok] at hr
  · intro hr
    unfold imagesQrGet at hr
    by_cases hlen : dataStr.length > 1000
    · simp [hlen] at hr
      rw [← hr.1, ← hr.2]
    · cases b64Gen with
      | error e =>
          simp [hlen] at hr
          rw [← hr.1, ← hr.2]
      | ok s =>
          cases isBase64 with
          | true =>
              simp [hlen] at hr
              rw [← hr.1, ← hr.2]
          | false => simp [hlen] at hr
  · intro hr
    unfold dominantColorsGet at hr
    cases udl with
    | error e => simp at hr; rw [← hr.1, ← hr.2]
    | ok u1 =>
        cases dl with
        | error e => simp at hr; rw [← hr.1, ← hr.2]
        | ok u2 =>
            cases imgOpen with
            | error e => simp at hr; rw [← hr.1, ← hr.2]
            | ok u3 =>
                cases processing with
                | error e => simp at hr
                | ok pr =>
                    obtain ⟨hex, rgb⟩ := pr
                    simp at hr
                    rw [← hr.1, ← hr.2]

/-- C5 witness: the amended theorem applied at the 401-rejection branch,
where body status and transport agree. -/
theorem c5_status_field_witness :
    invalidKeyEnv.status = (401 : Int)
    ∨ ((401 : Int) = 200
        ∧ invalidKeyEnv.status
            = (⟨200, "", .wellFormed []⟩ : UpstreamResponse).status_code
        ∧ (⟨200, "", .wellFormed []⟩ : UpstreamResponse).status_code ≠ 200)
    ∨ ((401 : Int) = 404 ∧ invalidKeyEnv.status = 200 ∧ invalidKeyEnv.ok = true
        ∧ invalidKeyEnv.data = .null) :=
  (c5_status_field [] "x" none ⟨200, "", .wellFormed []⟩ [] (.ok ()) (.ok ())
    (.ok ()) (.ok ()) (.ok ()) "" "png" false (.ok "") (.ok ([], []))
    invalidKeyEnv 401).1 rfl

/-- C6 counterexample: the claim says the transport HTTP status mirrors the
upstream status code on upstream failure.  The handler returns a bare
dict, so the transport is 200 even though the upstream answered 503. -/
theorem c6_counterexample :
    nowPlayingGet [⟨"ZLAPI-def", "2024-02-02T00:00:00", "System"⟩] "ZLAPI-def"
        ⟨503, "overloaded", .malformed "oops"⟩
      = .jsonResp
          { ok := false, status := 503,
            message := "Failed to get now playing data from LastFM while sending request. Response from the API is in the data key.",
            data := .rawText "overloaded" } 200
    ∧ (200 : Int) ≠ 503 :=
  ⟨rfl, by decide⟩

/-- C6 amended: on an authenticated request with a non-200 upstream
answer, both activity handlers return `ok:false`, body `status` equal to
the upstream code, the "Failed to ... while sending request" message and
the raw upstream body in `data` — but the transport status is the
framework default 200, not the upstream code. -/
theorem c6_upstream_failure (store : List KeyRecord) (k : String)
    (limit : Option Int) (up : UpstreamResponse)
    (hauth : checkApiKeyList store (some k) = true)
    (hup : up.status_code ≠ 200) :
    nowPlayingGet store k up
      = .jsonResp
          { ok := false, status := up.status_code,
            message := "Failed to get now playing data from LastFM while sending request. Response from the API is in the data key.",
            data := .rawText up.text } 200
    ∧ recentTracksGet store k limit up
      = .jsonResp
          { ok := false, status := up.status_code,
            message := "Failed to get recent tracks data from LastFM while sending request. Response from the API is in the data key.",
            data := .rawText up.text } 200 := by
  constructor
  · unfold nowPlayingGet
    rw [hauth, if_neg (by simp), if_pos hup]
  · unfold recentTracksGet
    rw [hauth, if_neg (by simp), if_pos hup]

/-- C6 witness: the amended theorem at a concrete authenticated request
with a 503 upstream. -/
theorem c6_upstream_failure_witness :
    nowPlayingGet [⟨"ZLAPI-def", "2024-02-02T00:00:00", "System"⟩] "ZLAPI-def"
        ⟨503, "na", .malformed "m"⟩
      = .jsonResp
          { ok := false, status := (503 : Int),
            message := "Failed to get now playing data from LastFM while sending request. Response from the API is in the data key.",
            data := .rawText "na" } 200
    ∧ recentTracksGet [⟨"ZLAPI-def", "2024-02-02T00:00:00", "System"⟩] "ZLAPI-def"
        none ⟨503, "na", .malformed "m"⟩
      = .jsonResp
          { ok := false, status := (503 : Int),
            message := "Failed to get recent tracks data from LastFM while sending request. Response from the API is in the data key.",
            data := .rawText "na" } 200 :=
  c6_upstream_failure [⟨"ZLAPI-def", "2024-02-02T00:00:00", "System"⟩] "ZLAPI-def"
    none ⟨503, "na", .malformed "m"⟩ (by decide) (by decide)

/-- C8: on an authenticated request where the upstream answered 200 with a
well-formed payload whose first track is not marked now-playing, the
handler returns the success envelope `ok:true, status:200, data:null`
with transport HTTP status 404. -/
theorem c8_no_track_404 (store : List KeyRecord) (k text : String)
    (t0 : LfmTrack) (rest : List LfmTrack)
    (hauth : checkApiKeyList store (some k) = true)
    (hnp : t0.nowplaying = false) :
    nowPlayingGet store k ⟨200, text, .wellFormed (t0 :: rest)⟩
      = .jsonResp
          { ok := true, status := 200,
            message := "No track is currently playing", data := .null } 404 := by
  unfold nowPlayingGet
  rw [hauth, if_neg (by simp), if_neg (by simp)]
  simp [hnp]

/-- C8 witness: a concrete authenticated request with one non-playing
track. -/
theorem c8_no_track_404_witness :
    nowPlayingGet [⟨"ZLAPI-ghi", "2024-03-03T00:00:00", "System"⟩] "ZLAPI-ghi"
        ⟨200, "", .wellFormed [⟨"ar", "nm", "al", "ur", ["im"], false⟩]⟩
      = .jsonResp
          { ok := true, status := 200,
            message := "No track is currently playing", data := .null } 404 :=
  c8_no_track_404 [⟨"ZLAPI-ghi", "2024-03-03T00:00:00", "System"⟩] "ZLAPI-ghi"
    "" ⟨"ar", "nm", "al", "ur", ["im"], false⟩ [] (by decide) rfl

/-- C9 counterexample: the claim says the `limit` parameter is a
non-negative integer.  The parser is plain `type=int`: `limit=-1` is
accepted, the handler runs, and Python slicing `tracks[:-1]` drops the
last track — the request is served (HTTP 200 success), not rejected. -/
theorem c9_counterexample :
    recentTracksEndpoint [⟨"ZLAPI-jkl", "2024-04-04T00:00:00", "System"⟩]
        [("api_key", "ZLAPI-jkl"), ("limit", "-1")]
        ⟨200, "",
          .wellFormed [⟨"a1", "n1", "l1", "u1", ["i1"], false⟩,
                       ⟨"a2", "n2", "l2", "u2", ["i2"], false⟩]⟩
      = .jsonResp
          { ok := true, status := 200,
            message := "Successfully fetched recent tracks data.",
            data := .tracks [⟨"a1", "n1", "l1", "u1", "i1"⟩] } 200
    ∧ (-1 : Int) < 0 :=
  ⟨by decide, by decide⟩

/-- C9 amended: `limit` is parsed as an arbitrary integer (negative values
are accepted and slice from the end, Python-style); for every non-negative
`n` the returned data is exactly the first `min n (length)` tracks of the
upstream list in order, and an absent `limit` returns the full list. -/
theorem c9_limit_truncation (store : List KeyRecord) (k text : String)
    (tracks : List LfmTrack) (n : Int)
    (hauth : checkApiKeyList store (some k) = true)
    (himg : ∀ t ∈ tracks, t.imageTexts ≠ [])
    (hn : 0 ≤ n) :
    recentTracksGet store k (some n) ⟨200, text, .wellFormed tracks⟩
      = .jsonResp
          { ok := true, status := 200,
            message := "Successfully fetched recent tracks data.",
            data := .tracks ((tracks.take n.toNat).map trackOutD) } 200
    ∧ (tracks.take n.toNat).length = min n.toNat tracks.length
    ∧ recentTracksGet store k none ⟨200, text, .wellFormed tracks⟩
      = .jsonResp
          { ok := true, status := 200,
            message := "Successfully fetched recent tracks data.",
            data := .tracks (tracks.map trackOutD) } 200 := by
  have hsl : limitSlice tracks (some n) = tracks.take n.toNat := by
    simp [limitSlice, pySliceTo, hn]
  have himg' : ∀ t ∈ tracks.take n.toNat, t.imageTexts ≠ [] :=
    fun t ht => himg t (List.take_subset _ _ ht)
  refine ⟨?_, List.length_take _ _, ?_⟩
  · unfold recentTracksGet
    rw [hauth, if_neg (by simp), if_neg (by simp)]
    simp [hsl, tracksToData_eq_ok _ himg']
  · unfold recentTracksGet
    rw [hauth, if_neg (by simp), if_neg (by simp)]
    simp [limitSlice, tracksToData_eq_ok _ himg]

/-- C9 witness: truncation at a concrete non-negative limit. -/
theorem c9_limit_truncation_witness :
    recentTracksGet [⟨"ZLAPI-jkl", "2024-04-04T00:00:00", "System"⟩] "ZLAPI-jkl"
        (some 1)
        ⟨200, "",
          .wellFormed [⟨"a1", "n1", "l1", "u1", ["i1"], false⟩,
                       ⟨"a2", "n2", "l2", "u2", ["i2"], false⟩]⟩
      = .jsonResp
          { ok := true, status := 200,
            message := "Successfully fetched recent tracks data.",
            data := .tracks
              (([⟨"a1", "n1", "l1", "u1", ["i1"], false⟩,
                 ⟨"a2", "n2", "l2", "u2", ["i2"], false⟩] :
                  List LfmTrack).take (1 : Int).toNat |>.map trackOutD) } 200 :=
  (c9_limit_truncation [⟨"ZLAPI-jkl", "2024-04-04T00:00:00", "System"⟩] "ZLAPI-jkl"
    ""
    [⟨"a1", "n1", "l1", "u1", ["i1"], false⟩, ⟨"a2", "n2", "l2", "u2", ["i2"], false⟩]
    1 (by decide) (by decide) (by decide)).1

/-- C10 witness: the amended theorem applied at a concrete request (truthy
remote address, present key) and at the fallback path. -/
theorem c10_identity_priority_witness :
    custom_key_func (some "ZLAPI-key") (some "198.51.100.7") []
        = if pyTruthy (some "ZLAPI-key") then some "ZLAPI-key" else some "198.51.100.7" :=
  (c10_identity_priority (some "ZLAPI-key") (some "198.51.100.7") []).1 (by decide)

end ZLApi
